import Mathlib

/-!
Verification of the CryptoVerifier Telegram bot (crypto-verifier-openserv).

Shallow embedding of the repository's five source files:
  * helpers/validators.ts  — isUrl, isEthereumAddress, containsScamPatterns
  * helpers/formatter.ts   — convertToTelegramMarkdown
  * shared-state.ts        — session store, current-chat pointer
  * telegram-bot.ts        — command handlers (classification dispatch, history)
  * index.ts               — workflow builders and the sendTelegramMessage capability

Strings are modelled as Lean String / List Char; JavaScript numbers as Int/Nat;
Date timestamps as an abstract Nat clock passed explicitly; the remote task
platform as an oracle mapping the index of each createTask call inside one
workflow invocation to either an assigned task id or a failure message.
-/

namespace CryptoVerifier

/-! ### Content classifier (helpers/validators.ts, telegram-bot.ts dispatch) -/

/-- Scheme characters allowed after the leading ALPHA of a URI scheme. -/
def isSchemeChar (c : Char) : Bool :=
  c.isAlphanum || c == '+' || c == '-' || c == '.'

/-- Scan the tail of a candidate URL for the colon that ends the scheme. -/
def schemeTailHasColon : List Char → Bool
  | [] => false
  | c :: rest => if c == ':' then true else if isSchemeChar c then schemeTailHasColon rest else false

/-- Modelled from the spec: the source's isUrl defers to the host runtime's
WHATWG URL constructor (new URL(text)), which is not part of this repository.
Per spec §4.1, a url is text that parses as a well-formed URI with scheme, any
parse failure disqualifying it.  Modelled as: the text starts with an ASCII
letter followed by a run of scheme characters (ALPHA / DIGIT / plus / minus /
dot) ending in a colon.  This agrees with the host parser on every string the
claims mention (no scheme-shaped strings with degenerate bodies appear there). -/
def isUrl (s : String) : Bool :=
  match s.data with
  | [] => false
  | c :: rest => c.isAlpha && schemeTailHasColon rest

/-- One hexadecimal character, either case (the class [a-fA-F0-9]). -/
def isHexDigit (c : Char) : Bool :=
  (('0' ≤ c) && (c ≤ '9')) || (('a' ≤ c) && (c ≤ 'f')) || (('A' ≤ c) && (c ≤ 'F'))

/-- Embeds isEthereumAddress: the regex test on the pattern with anchors,
lowercase literal 0x, then exactly 40 characters of [a-fA-F0-9]. -/
def isEthereumAddress (s : String) : Bool :=
  match s.data with
  | '0' :: 'x' :: rest => (rest.length == 40) && rest.all isHexDigit
  | _ => false

/-- The three content categories of the /check dispatch. -/
inductive Category where
  | url
  | tokenAddress
  | message
deriving DecidableEq, Repr

/-- Embeds the /check handler's dispatch in telegram-bot.ts: isUrl first,
isEthereumAddress second, message as the fallback. -/
def classify (s : String) : Category :=
  if isUrl s then .url
  else if isEthereumAddress s then .tokenAddress
  else .message

/-- Modelled from the spec (for the corrected claim C5 only): the claim's
reading of the address pattern with a case-insensitive prefix, allowing 0X as
well as 0x before the 40 hex characters.  The source regex has no /i flag and
requires the lowercase prefix literally. -/
def specTokenPatternCI (s : String) : Bool :=
  match s.data with
  | c0 :: c1 :: rest =>
      (c0 == '0') && (c1 == 'x' || c1 == 'X') && (rest.length == 40) && rest.all isHexDigit
  | _ => false

/-! ### Pattern scanner (helpers/validators.ts containsScamPatterns)

A small backtracking matcher covering exactly the regular-expression
constructs the eight fixed scam patterns use: literal strings, the dot class
(any character except a line terminator), the digit and whitespace classes,
star and plus over a class, alternation, concatenation and the word-boundary
assertion.  RegExp.test searches for a match starting at any position. -/

/-- Character classes used by the scam patterns. -/
inductive CClass where
  | dot
  | digit
  | space
deriving DecidableEq

/-- Line terminators (not matched by the dot class; after one of these the
multiline anchor matches). -/
def isLineTerm (c : Char) : Bool :=
  c == '\n' || c == '\r' || c == ' ' || c == ' '

/-- JavaScript whitespace class, restricted to its ASCII members (the scam
patterns are only ever run on chat text; the exotic Unicode spaces are not
load-bearing for any claim). -/
def isJsSpace (c : Char) : Bool :=
  c == ' ' || c == '\t' || c == '\n' || c == '\r' || c == '\x0b' || c == '\x0c'

/-- Class membership for one character. -/
def classMem : CClass → Char → Bool
  | .dot, c => !isLineTerm c
  | .digit, c => c.isDigit
  | .space, c => isJsSpace c

/-- Regular expressions over the constructs the fixed patterns need. -/
inductive Rx where
  | eps
  | lit : List Char → Rx
  | cls : CClass → Rx
  | starC : CClass → Rx
  | alt : Rx → Rx → Rx
  | cat : Rx → Rx → Rx
  | wb
deriving DecidableEq

/-- A word character for the word-boundary assertion ([A-Za-z0-9_]). -/
def isWordChar (c : Char) : Bool := c.isAlphanum || c == '_'

/-- Word boundary: exactly one of the neighbouring characters is a word
character (absent neighbours count as non-word). -/
def atBoundary (prev : Option Char) (s : List Char) : Bool :=
  let a := match prev with
    | some c => isWordChar c
    | none => false
  let b := match s with
    | x :: _ => isWordChar x
    | [] => false
  a != b

/-- Match a literal string, threading the previous character and the
continuation. -/
def litRun : List Char → Option Char → List Char → (Option Char → List Char → Bool) → Bool
  | [], prev, s, k => k prev s
  | c :: cs, _, s, k =>
      match s with
      | [] => false
      | x :: xs => x == c && litRun cs (some x) xs k

/-- Match zero or more characters of a class, trying every split (full
backtracking, so the greedy/lazy distinction is immaterial for test). -/
def starRun (cl : CClass) (prev : Option Char) (s : List Char)
    (k : Option Char → List Char → Bool) : Bool :=
  k prev s ||
    match s with
    | [] => false
    | x :: xs => classMem cl x && starRun cl (some x) xs k

/-- CPS matcher: mrun r prev s k holds iff some prefix of s matches r and k
accepts the rest (prev is the character just before s, for boundaries). -/
def mrun : Rx → Option Char → List Char → (Option Char → List Char → Bool) → Bool
  | .eps, prev, s, k => k prev s
  | .lit l, prev, s, k => litRun l prev s k
  | .cls cl, _, s, k =>
      match s with
      | [] => false
      | x :: xs => classMem cl x && k (some x) xs
  | .starC cl, prev, s, k => starRun cl prev s k
  | .alt a b, prev, s, k => mrun a prev s k || mrun b prev s k
  | .cat a b, prev, s, k => mrun a prev s (fun p t => mrun b p t k)
  | .wb, prev, s, k => atBoundary prev s && k prev s

/-- Unanchored search: try a match starting at every position. -/
def searchFrom (r : Rx) (prev : Option Char) (s : List Char) : Bool :=
  mrun r prev s (fun _ _ => true) ||
    match s with
    | [] => false
    | x :: xs => searchFrom r (some x) xs

/-- RegExp.test on a string. -/
def rxTest (r : Rx) (s : String) : Bool := searchFrom r none s.data

/-- Concatenate a list of regexes. -/
def rcat (l : List Rx) : Rx := l.foldr Rx.cat Rx.eps

/-- The dot-star gap between pattern segments. -/
def gap : Rx := .starC .dot

/-- One or more digits followed by optional whitespace. -/
def numWs : Rx := rcat [.cls .digit, .starC .digit, .starC .space]

/-- eth, btc or usdt. -/
def coinAlt : Rx := .alt (.lit "eth".data) (.alt (.lit "btc".data) (.lit "usdt".data))

/-- A word wrapped in boundary assertions. -/
def word (w : String) : Rx := rcat [.wb, .lit w.data, .wb]

/-- Pattern: send dotstar digits ws coin dotstar receive dotstar digits ws coin. -/
def patSendReceive : Rx :=
  rcat [.lit "send".data, gap, numWs, coinAlt, gap, .lit "receive".data, gap, numWs, coinAlt]

/-- Pattern: private key, recovery phrase or seed phrase. -/
def patPrivateKey : Rx :=
  .alt (.lit "private key".data) (.alt (.lit "recovery phrase".data) (.lit "seed phrase".data))

/-- Pattern: (click or visit or check) dotstar link dotstar to claim. -/
def patClaimLink : Rx :=
  rcat [.alt (.lit "click".data) (.alt (.lit "visit".data) (.lit "check".data)),
    gap, .lit "link".data, gap, .lit "to claim".data]

/-- Pattern: whitelist-word dotstar opportunity-word. -/
def patWhitelist : Rx := rcat [word "whitelist", gap, word "opportunity"]

/-- Pattern: upgrade-word dotstar wallet-word. -/
def patUpgrade : Rx := rcat [word "upgrade", gap, word "wallet"]

/-- Pattern: airdrop-word dotstar claim-word dotstar connect-word. -/
def patAirdrop : Rx := rcat [word "airdrop", gap, word "claim", gap, word "connect"]

/-- Pattern: validate-word dotstar wallet-word. -/
def patValidate : Rx := rcat [word "validate", gap, word "wallet"]

/-- Pattern: migrate-word dotstar token-word. -/
def patMigrate : Rx := rcat [word "migrate", gap, word "token"]

/-- The fixed ordered pattern list of containsScamPatterns, each with its
description string. -/
def scamPatterns : List (Rx × String) :=
  [(patSendReceive, "Send X to receive Y scam"),
   (patPrivateKey, "Asking for private key or seed phrase"),
   (patClaimLink, "Link to claim tokens/rewards"),
   (patWhitelist, "Suspicious whitelist opportunity"),
   (patUpgrade, "Suspicious wallet upgrade request"),
   (patAirdrop, "Suspicious airdrop claim"),
   (patValidate, "Wallet validation scam"),
   (patMigrate, "Token migration scam")]

/-- Result record of containsScamPatterns. -/
structure ScanResult where
  containsPatterns : Bool
  patterns : List String
deriving DecidableEq, Repr

/-- The accumulation loop over the pattern list. -/
def scanLoop : List (Rx × String) → String → List String
  | [], _ => []
  | p :: ps, t => if rxTest p.1 t then p.2 :: scanLoop ps t else scanLoop ps t

/-- text.toLowerCase(), character by character (the inputs here are chat
text; the patterns only distinguish ASCII letters). -/
def strToLower (s : String) : String := ⟨s.data.map Char.toLower⟩

/-- Embeds containsScamPatterns: lowercase the text, test each fixed pattern
in order, collect the descriptions of the patterns that matched; the boolean
is whether any matched. -/
def containsScamPatterns (text : String) : ScanResult :=
  let lowerText := strToLower text
  let foundPatterns := scanLoop scamPatterns lowerText
  { containsPatterns := decide (0 < foundPatterns.length), patterns := foundPatterns }

/-! ### Session store (shared-state.ts) and the /history handler
(telegram-bot.ts).  The Map of user sessions is modelled as a function from
chat id to an optional session; Date.now is an explicit Nat clock. -/

/-- The type field of one analysis record ('url' | 'token' | 'message'). -/
inductive AnalysisType where
  | url
  | token
  | message
deriving DecidableEq, Repr

/-- One recorded analysis (id, type, content, timestamp). -/
structure AnalysisEntry where
  id : String
  type : AnalysisType
  content : String
  timestamp : Nat
deriving DecidableEq, Repr

/-- The analysisDetails argument of updateUserSession (no timestamp yet). -/
structure AnalysisDetails where
  id : String
  type : AnalysisType
  content : String
deriving DecidableEq, Repr

/-- A user session: chat id, last interaction time, recorded analyses. -/
structure UserSession where
  chatId : Int
  lastInteraction : Nat
  analyses : List AnalysisEntry
deriving DecidableEq, Repr

/-- The in-memory userSessions map. -/
def SessionStore := Int → Option UserSession

/-- The entry appended for one analysisDetails argument (empty when the
argument is absent). -/
def entryOf (details : Option AnalysisDetails) (now : Nat) : List AnalysisEntry :=
  match details with
  | some d => [⟨d.id, d.type, d.content, now⟩]
  | none => []

/-- Embeds updateUserSession: push one timestamped entry onto the existing
session's analyses (or refresh only lastInteraction when no details are
given); create a fresh session with zero or one entries when the chat has
none.  Returns the updated store and the session the source returns. -/
def updateUserSession (store : SessionStore) (chatId : Int)
    (details : Option AnalysisDetails) (now : Nat) : SessionStore × UserSession :=
  match store chatId with
  | some existingSession =>
      let s : UserSession :=
        { existingSession with
          lastInteraction := now
          analyses := existingSession.analyses ++ entryOf details now }
      (fun c => if c == chatId then some s else store c, s)
  | none =>
      let s : UserSession :=
        { chatId := chatId, lastInteraction := now, analyses := entryOf details now }
      (fun c => if c == chatId then some s else store c, s)

/-- Embeds getUserAnalysisHistory: the session's analyses, or empty. -/
def getUserAnalysisHistory (store : SessionStore) (chatId : Int) : List AnalysisEntry :=
  match store chatId with
  | some session => session.analyses
  | none => []

/-- JavaScript arr.slice(-n): the last n elements (all of them when the array
is shorter).  Nat subtraction supplies the clamp at zero. -/
def jsSliceLast (n : Nat) (l : List AnalysisEntry) : List AnalysisEntry :=
  l.drop (l.length - n)

/-- Embeds the /history handler's analyses.slice(-5).reverse(). -/
def recentAnalyses (analyses : List AnalysisEntry) : List AnalysisEntry :=
  (jsSliceLast 5 analyses).reverse

/-! ### Report formatter (helpers/formatter.ts convertToTelegramMarkdown)

The source escapes every reserved MarkdownV2 character line by line, then runs
ten global regex substitutions re-enabling headers, bold, italic, bullet
lists and links over the escaped form, and finally collapses runs of three or
more newlines to two.  Each substitution is embedded as a scanner over the
character list.  None of the substitution patterns can span a newline (their
pieces are escaped characters and dot-class groups), and none of the
replacements contains a newline, so the non-anchored global substitutions are
applied per line; the two line-anchored list substitutions, whose whitespace
run may swallow newlines, scan the whole text with a line-start flag.  The
scanners take explicit fuel (one unit per position examined, so the input
length suffices) to stay structurally recursive. -/

/-- The backslash character. -/
def bs : Char := '\\'

/-- The escaped character class of escapeChars. -/
def isReservedChar (c : Char) : Bool :=
  c == '_' || c == '*' || c == '[' || c == ']' || c == '(' || c == ')' ||
  c == '~' || c == Char.ofNat 96 || c == '>' || c == '#' || c == '+' ||
  c == '=' || c == '|' || c == Char.ofNat 123 || c == Char.ofNat 125 ||
  c == '.' || c == '!' || c == '-'

/-- Escape one character (backslash-prefix the reserved ones). -/
def escChar (c : Char) : List Char :=
  if isReservedChar c then [bs, c] else [c]

/-- escapeChars on one line. -/
def escapeLine (line : List Char) : List Char := line.flatMap escChar

/-- split('\n'). -/
def splitNl : List Char → List (List Char)
  | [] => [[]]
  | c :: cs =>
    if c == '\n' then [] :: splitNl cs
    else
      match splitNl cs with
      | [] => [[c]]
      | l :: ls => (c :: l) :: ls

/-- join('\n'). -/
def joinNl : List (List Char) → List Char
  | [] => []
  | [l] => l
  | l :: ls => l ++ '\n' :: joinNl ls

/-- Apply a per-line transformation to every line. -/
def mapLines (f : List Char → List Char) (s : List Char) : List Char :=
  joinNl ((splitNl s).map f)

/-- The escaped header marker: n copies of backslash-hash, then a space. -/
def hdrPat (n : Nat) : List Char := (List.replicate n [bs, '#']).flatten ++ [' ']

/-- One header substitution on one line: a line-anchored escaped header
marker and the rest of the line become the rest wrapped in asterisks. -/
def hdrLine (n : Nat) (line : List Char) : List Char :=
  if (hdrPat n).isPrefixOf line then '*' :: line.drop (hdrPat n).length ++ ['*']
  else line

/-- Find the earliest escaped closer (backslash followed by clRest) whose gap
from the current position contains no line terminator; return the gap and the
text after the closer. -/
def findCloseB (clRest : List Char) : List Char → Option (List Char × List Char)
  | [] => none
  | c :: cs =>
    if c == bs && clRest.isPrefixOf cs then some ([], cs.drop clRest.length)
    else if isLineTerm c then none
    else
      match findCloseB clRest cs with
      | some (content, rest) => some (c :: content, rest)
      | none => none

/-- The paired-delimiter substitutions (bold and italic): an escaped opener
(backslash then opRest), a lazy dot-class group, an escaped closer, replaced
by the group wrapped in the marker w.  Lazy matching takes the earliest
closer, and nothing follows the closer in these patterns, so no backtracking
beyond it is needed. -/
def pairScanF (opRest clRest : List Char) (w : Char) : Nat → List Char → List Char
  | 0, line => line
  | _ + 1, [] => []
  | fuel + 1, c :: cs =>
    if c == bs && opRest.isPrefixOf cs then
      match findCloseB clRest (cs.drop opRest.length) with
      | some (content, rest) => w :: content ++ w :: pairScanF opRest clRest w fuel rest
      | none => c :: pairScanF opRest clRest w fuel cs
    else c :: pairScanF opRest clRest w fuel cs

/-- Length bound used for the termination of linkFind. -/
theorem findCloseB_rest_length (clRest : List Char) :
    ∀ s content rest, findCloseB clRest s = some (content, rest) → rest.length < s.length := by
  intro s
  induction s with
  | nil => intro content rest h; simp [findCloseB] at h
  | cons c cs ih =>
      intro content rest h
      simp only [findCloseB] at h
      split at h
      · rcases h with ⟨rfl, rfl⟩
        simp only [List.length_cons, List.length_drop]
        omega
      · split at h
        · exact absurd h (by simp)
        · split at h
          · rename_i content0 rest0 heq
            rcases h with ⟨rfl, rfl⟩
            have := ih _ _ heq
            simp only [List.length_cons]
            omega
          · exact absurd h (by simp)

/-- The body of the link substitution after its escaped opening bracket: find
an escaped closing bracket, demand an immediately following escaped opening
parenthesis and an escaped closing parenthesis for the second lazy group; on
failure extend the first lazy group past that closing bracket and retry, as
the regex engine backtracks. -/
def linkFind (s : List Char) : Option (List Char × List Char × List Char) :=
  match h1 : findCloseB [']'] s with
  | none => none
  | some (c1, r1) =>
    match (if [bs, '('].isPrefixOf r1 then findCloseB [')'] (r1.drop 2) else none) with
    | some (c2, r2) => some (c1, c2, r2)
    | none =>
      match linkFind r1 with
      | some (c1b, c2, r2) => some (c1 ++ bs :: ']' :: c1b, c2, r2)
      | none => none
termination_by s.length
decreasing_by
  exact findCloseB_rest_length _ _ _ _ h1

/-- The link substitution on one line: escaped link syntax becomes the plain
two-group link markup. -/
def linkScanF : Nat → List Char → List Char
  | 0, line => line
  | _ + 1, [] => []
  | fuel + 1, c :: cs =>
    if c == bs && ['['].isPrefixOf cs then
      match linkFind (cs.drop 1) with
      | some (c1, c2, rest) =>
          '[' :: c1 ++ ']' :: '(' :: c2 ++ ')' :: linkScanF fuel rest
      | none => c :: linkScanF fuel cs
    else c :: linkScanF fuel cs

/-- Whether a greedy whitespace run ends on a line terminator (deciding
whether the next scan position is a line start). -/
def wsEndsLine (ws : List Char) : Bool :=
  match ws.getLast? with
  | some c => isLineTerm c
  | none => false

/-- The bullet-list substitution: a line-anchored escaped dash and a greedy
nonempty whitespace run become a bullet and a space. -/
def dashStageF : Nat → Bool → List Char → List Char
  | 0, _, s => s
  | _ + 1, _, [] => []
  | fuel + 1, atStart, c :: cs =>
    if atStart && c == bs && ['-'].isPrefixOf cs then
      let afterDash := cs.drop 1
      let ws := afterDash.takeWhile isJsSpace
      if 0 < ws.length then
        '•' :: ' ' :: dashStageF fuel (wsEndsLine ws) (afterDash.drop ws.length)
      else c :: dashStageF fuel (isLineTerm c) cs
    else c :: dashStageF fuel (isLineTerm c) cs

/-- The numbered-list substitution: a line-anchored nonempty digit run, an
escaped dot and a greedy nonempty whitespace run become a bullet and a
space. -/
def numStageF : Nat → Bool → List Char → List Char
  | 0, _, s => s
  | _ + 1, _, [] => []
  | fuel + 1, atStart, c :: cs =>
    let ds := (c :: cs).takeWhile Char.isDigit
    if atStart && 0 < ds.length && [bs, '.'].isPrefixOf ((c :: cs).drop ds.length) then
      let afterDot := ((c :: cs).drop ds.length).drop 2
      let ws := afterDot.takeWhile isJsSpace
      if 0 < ws.length then
        '•' :: ' ' :: numStageF fuel (wsEndsLine ws) (afterDot.drop ws.length)
      else c :: numStageF fuel (isLineTerm c) cs
    else c :: numStageF fuel (isLineTerm c) cs

/-- Emit a newline run: runs of three or more collapse to exactly two. -/
def emitRun (n : Nat) : List Char := List.replicate (min n 2) '\n'

/-- The newline-collapse scanner (n newlines of the current run seen). -/
def collapseGo : Nat → List Char → List Char
  | n, [] => emitRun n
  | n, c :: cs =>
    if c == '\n' then collapseGo (n + 1) cs
    else emitRun n ++ c :: collapseGo 0 cs

/-- The final substitution: every run of three or more consecutive newlines
becomes exactly two; shorter runs are unchanged. -/
def collapseNl (s : List Char) : List Char := collapseGo 0 s

/-- Embeds convertToTelegramMarkdown: escape line by line, then headers of
depth three, two and one, bold (asterisk then underscore form), italic
(asterisk then underscore form), bullet and numbered lists, links, and the
newline collapse, in source order. -/
def convertToTelegramMarkdown (text : String) : String :=
  let escaped := mapLines escapeLine text.data
  let h3 := mapLines (hdrLine 3) escaped
  let h2 := mapLines (hdrLine 2) h3
  let h1 := mapLines (hdrLine 1) h2
  let b1 := mapLines (fun l => pairScanF ['*', bs, '*'] ['*', bs, '*'] '*' l.length l) h1
  let b2 := mapLines (fun l => pairScanF ['_', bs, '_'] ['_', bs, '_'] '*' l.length l) b1
  let i1 := mapLines (fun l => pairScanF ['*'] ['*'] '_' l.length l) b2
  let i2 := mapLines (fun l => pairScanF ['_'] ['_'] '_' l.length l) i1
  let d1 := dashStageF i2.length true i2
  let n1 := numStageF d1.length true d1
  let lk := mapLines (fun l => linkScanF l.length l) n1
  String.mk (collapseNl lk)

/-! ### The sendTelegramMessage capability (index.ts)

The remote-triggered capability reads the process-wide current chat id and
sends its content argument there: first with MarkdownV2 formatting, falling
back to plain text if the transport rejects the markup.  The two transport
outcomes are modelled by markdownOk and plainOk flags; delivered messages are
recorded as (chat id, text, parse mode).  The JavaScript guard (!chatId) is
falsy for both null and the number zero. -/

/-- Embeds the capability's run handler: its returned status string and the
messages actually delivered to the transport. -/
def sendTelegramMessage (currentChatId : Option Int) (content : String)
    (markdownOk plainOk : Bool) : String × List (Int × String × Option String) :=
  match currentChatId with
  | none => ("No chat ID available", [])
  | some chatId =>
    if chatId == 0 then ("No chat ID available", [])
    else if markdownOk then
      ("Message sent successfully",
        [(chatId, convertToTelegramMarkdown content, some "MarkdownV2")])
    else if plainOk then
      ("Message sent as plain text", [(chatId, content, none)])
    else ("Failed to send message", [])

/-! ### Workflow builders (index.ts)

Each builder submits five createTask calls in sequence.  The remote platform
is an oracle from the index of the call inside this invocation to either the
assigned task id or the rendered error message of a failed submission (the
source renders error.response.data, error.message or a fallback into one
string; the oracle carries that rendered string).  The natural-language
prompt bodies and input payloads are opaque prose (spec §1) and are not part
of any claim; the embedding keeps the workspace, assignee, description,
expected-output artifact name and the dependency list of every task.  The
catch block sends one error message to the chat named by the current-chat
pointer when that pointer is set (JavaScript truthiness: null and zero are
falsy). -/

/-- The agent-id and workspace configuration (enum AgentIDs and
WORKSPACE_ID), with the source's numeric fallback defaults. -/
structure EnvConfig where
  workspaceId : Int := 1
  agentId : Nat := 280
  braveSearchId : Nat := 171
  webContentReaderId : Nat := 172
  exaAgentId : Nat := 386
  copyWriterId : Nat := 41
  ethScannerId : Nat := 167
  jsonAnalyzerId : Nat := 65
deriving DecidableEq, Repr

/-- One createTask request (prompt body and input payload elided as opaque
prose). -/
structure CreateTaskReq where
  workspaceId : Int
  assignee : Nat
  description : String
  expectedOutput : String
  dependencies : List Nat
deriving DecidableEq, Repr

/-- The observable outcome of one workflow invocation: the tasks the platform
accepted, in creation order with their assigned ids, and the chat messages
this process sent. -/
structure WorkflowOutcome where
  created : List (Nat × CreateTaskReq)
  messages : List (Int × String)
deriving DecidableEq, Repr

/-- The remote platform: per createTask call (indexed within one invocation),
an assigned task id or a rendered submission error. -/
def TaskOracle := Nat → Except String Nat

/-- Embeds verifyAgentInWorkspace: its try body only logs and returns true,
so the catch path is unreachable and the healthcheck always succeeds. -/
def verifyAgentInWorkspace : Bool := true

/-- The catch block's user-facing error delivery: one message when the
current-chat pointer holds a truthy chat id, none otherwise. -/
def errorReport (currentChatId : Option Int) (msg : String) : List (Int × String) :=
  match currentChatId with
  | some chatId => if chatId == 0 then [] else [(chatId, msg)]
  | none => []

/-- Embeds createUrlAnalysisWorkflow: five tasks — reputation search, content
fetch (after 1), deep research (after 1), report generation (after 2 and 3),
delivery (after 4) — aborting at the first failed submission with one error
message to the current chat. -/
def createUrlAnalysisWorkflow (env : EnvConfig) (oracle : TaskOracle)
    (currentChatId : Option Int) (url requestId : String) : WorkflowOutcome :=
  if verifyAgentInWorkspace = false then
    { created := [],
      messages := errorReport currentChatId
        ("❌ Error analyzing URL: Agent " ++ toString env.agentId ++
          " is not available in workspace " ++ toString env.workspaceId) }
  else
    let req1 : CreateTaskReq :=
      { workspaceId := env.workspaceId
        assignee := env.braveSearchId
        description := "Research if " ++ url ++ " is a scam, phishing site, or has been reported"
        expectedOutput := "Research results about " ++ url ++ " safety, saved as " ++
          requestId ++ "_URL_SEARCH_DATA.json"
        dependencies := [] }
    match oracle 0 with
    | .error e =>
        { created := [],
          messages := errorReport currentChatId ("❌ Error analyzing URL: " ++ e) }
    | .ok id1 =>
      let req2 : CreateTaskReq :=
        { workspaceId := env.workspaceId
          assignee := env.webContentReaderId
          description := "Safely read the content of " ++ url ++ " for analysis"
          expectedOutput := "Content of " ++ url ++ " saved as " ++ requestId ++
            "_URL_CONTENT_DATA.json"
          dependencies := [id1] }
      match oracle 1 with
      | .error e =>
          { created := [(id1, req1)],
            messages := errorReport currentChatId ("❌ Error analyzing URL: " ++ e) }
      | .ok id2 =>
        let req3 : CreateTaskReq :=
          { workspaceId := env.workspaceId
            assignee := env.exaAgentId
            description := "Perform deep research on " ++ url ++ " for security analysis"
            expectedOutput := "Comprehensive research on " ++ url ++ " safety, saved as " ++
              requestId ++ "_URL_DEEP_RESEARCH.json"
            dependencies := [id1] }
        match oracle 2 with
        | .error e =>
            { created := [(id1, req1), (id2, req2)],
              messages := errorReport currentChatId ("❌ Error analyzing URL: " ++ e) }
        | .ok id3 =>
          let req4 : CreateTaskReq :=
            { workspaceId := env.workspaceId
              assignee := env.copyWriterId
              description := "Generate a security report for " ++ url
              expectedOutput := "Security report for " ++ url ++ " saved as " ++
                requestId ++ "_URL_REPORT.md"
              dependencies := [id2, id3] }
          match oracle 3 with
          | .error e =>
              { created := [(id1, req1), (id2, req2), (id3, req3)],
                messages := errorReport currentChatId ("❌ Error analyzing URL: " ++ e) }
          | .ok id4 =>
            let req5 : CreateTaskReq :=
              { workspaceId := env.workspaceId
                assignee := env.agentId
                description := "Send URL security report to Telegram"
                expectedOutput := "Confirmation of report sent to Telegram user"
                dependencies := [id4] }
            match oracle 4 with
            | .error e =>
                { created := [(id1, req1), (id2, req2), (id3, req3), (id4, req4)],
                  messages := errorReport currentChatId ("❌ Error analyzing URL: " ++ e) }
            | .ok id5 =>
                { created := [(id1, req1), (id2, req2), (id3, req3), (id4, req4), (id5, req5)],
                  messages := [] }

/-- Embeds createTokenAnalysisWorkflow: contract scan, reputation search
(after 1), deep research (after 1), report generation (after 2 and 3),
delivery (after 4), with the same abort-and-report failure handling. -/
def createTokenAnalysisWorkflow (env : EnvConfig) (oracle : TaskOracle)
    (currentChatId : Option Int) (address chain requestId : String) : WorkflowOutcome :=
  if verifyAgentInWorkspace = false then
    { created := [],
      messages := errorReport currentChatId
        ("❌ Error analyzing token: Agent " ++ toString env.agentId ++
          " is not available in workspace " ++ toString env.workspaceId) }
  else
    let req1 : CreateTaskReq :=
      { workspaceId := env.workspaceId
        assignee := env.ethScannerId
        description := "Analyze token contract " ++ address ++ " on " ++ chain
        expectedOutput := "Token contract analysis saved as " ++ requestId ++ "_TOKEN_DATA.json"
        dependencies := [] }
    match oracle 0 with
    | .error e =>
        { created := [],
          messages := errorReport currentChatId ("❌ Error analyzing token: " ++ e) }
    | .ok id1 =>
      let req2 : CreateTaskReq :=
        { workspaceId := env.workspaceId
          assignee := env.braveSearchId
          description := "Research reputation of token " ++ address
          expectedOutput := "Token reputation research saved as " ++ requestId ++
            "_TOKEN_REPUTATION.json"
          dependencies := [id1] }
      match oracle 1 with
      | .error e =>
          { created := [(id1, req1)],
            messages := errorReport currentChatId ("❌ Error analyzing token: " ++ e) }
      | .ok id2 =>
        let req3 : CreateTaskReq :=
          { workspaceId := env.workspaceId
            assignee := env.exaAgentId
            description := "Perform deep research on token " ++ address
            expectedOutput := "Comprehensive token research saved as " ++ requestId ++
              "_TOKEN_DEEP_RESEARCH.json"
            dependencies := [id1] }
        match oracle 2 with
        | .error e =>
            { created := [(id1, req1), (id2, req2)],
              messages := errorReport currentChatId ("❌ Error analyzing token: " ++ e) }
        | .ok id3 =>
          let req4 : CreateTaskReq :=
            { workspaceId := env.workspaceId
              assignee := env.copyWriterId
              description := "Generate security report for token " ++ address
              expectedOutput := "Security report for token " ++ address ++ " saved as " ++
                requestId ++ "_TOKEN_REPORT.md"
              dependencies := [id2, id3] }
          match oracle 3 with
          | .error e =>
              { created := [(id1, req1), (id2, req2), (id3, req3)],
                messages := errorReport currentChatId ("❌ Error analyzing token: " ++ e) }
          | .ok id4 =>
            let req5 : CreateTaskReq :=
              { workspaceId := env.workspaceId
                assignee := env.agentId
                description := "Send token security report to Telegram"
                expectedOutput := "Confirmation of report sent to Telegram user"
                dependencies := [id4] }
            match oracle 4 with
            | .error e =>
                { created := [(id1, req1), (id2, req2), (id3, req3), (id4, req4)],
                  messages := errorReport currentChatId ("❌ Error analyzing token: " ++ e) }
            | .ok id5 =>
                { created := [(id1, req1), (id2, req2), (id3, req3), (id4, req4), (id5, req5)],
                  messages := [] }

/-- Embeds createMessageAnalysisWorkflow: URL extraction, content analysis
(after 1), URL research (after 1), report generation (after 2 and 3),
delivery (after 4), with the same abort-and-report failure handling. -/
def createMessageAnalysisWorkflow (env : EnvConfig) (oracle : TaskOracle)
    (currentChatId : Option Int) (message requestId : String)
    (contextInfo : Option String) : WorkflowOutcome :=
  if verifyAgentInWorkspace = false then
    { created := [],
      messages := errorReport currentChatId
        ("❌ Error analyzing message: Agent " ++ toString env.agentId ++
          " is not available in workspace " ++ toString env.workspaceId) }
  else
    let req1 : CreateTaskReq :=
      { workspaceId := env.workspaceId
        assignee := env.jsonAnalyzerId
        description := "Extract URLs from message for analysis"
        expectedOutput := "Extracted URLs saved as " ++ requestId ++ "_MESSAGE_URLS.json"
        dependencies := [] }
    match oracle 0 with
    | .error e =>
        { created := [],
          messages := errorReport currentChatId ("❌ Error analyzing message: " ++ e) }
    | .ok id1 =>
      let req2 : CreateTaskReq :=
        { workspaceId := env.workspaceId
          assignee := env.exaAgentId
          description := "Analyze message for scam and phishing indicators"
          expectedOutput := "Message analysis saved as " ++ requestId ++ "_MESSAGE_ANALYSIS.json"
          dependencies := [id1] }
      match oracle 1 with
      | .error e =>
          { created := [(id1, req1)],
            messages := errorReport currentChatId ("❌ Error analyzing message: " ++ e) }
      | .ok id2 =>
        let req3 : CreateTaskReq :=
          { workspaceId := env.workspaceId
            assignee := env.braveSearchId
            description := "Research any URLs found in the message"
            expectedOutput := "URL research saved as " ++ requestId ++ "_MESSAGE_URL_RESEARCH.json"
            dependencies := [id1] }
        match oracle 2 with
        | .error e =>
            { created := [(id1, req1), (id2, req2)],
              messages := errorReport currentChatId ("❌ Error analyzing message: " ++ e) }
        | .ok id3 =>
          let req4 : CreateTaskReq :=
            { workspaceId := env.workspaceId
              assignee := env.copyWriterId
              description := "Generate security report for message"
              expectedOutput := "Security report saved as " ++ requestId ++ "_MESSAGE_REPORT.md"
              dependencies := [id2, id3] }
          match oracle 3 with
          | .error e =>
              { created := [(id1, req1), (id2, req2), (id3, req3)],
                messages := errorReport currentChatId ("❌ Error analyzing message: " ++ e) }
          | .ok id4 =>
            let req5 : CreateTaskReq :=
              { workspaceId := env.workspaceId
                assignee := env.agentId
                description := "Send message security report to Telegram"
                expectedOutput := "Confirmation of report sent to Telegram user"
                dependencies := [id4] }
            match oracle 4 with
            | .error e =>
                { created := [(id1, req1), (id2, req2), (id3, req3), (id4, req4)],
                  messages := errorReport currentChatId ("❌ Error analyzing message: " ++ e) }
            | .ok id5 =>
                { created := [(id1, req1), (id2, req2), (id3, req3), (id4, req4), (id5, req5)],
                  messages := [] }

/-- The layered-DAG predicate on a submitted task list: every dependency of
every task is the id of a task created strictly earlier in the same
invocation (the shape of IsDag for an and-inverter graph, transported to
task lists). -/
def layered (l : List (Nat × CreateTaskReq)) : Prop :=
  ∀ i, (hi : i < l.length) → ∀ d ∈ (l.get ⟨i, hi⟩).2.dependencies,
    ∃ j, ∃ hj : j < l.length, j < i ∧ (l.get ⟨j, hj⟩).1 = d

/-! ## Theorems -/

/-- The scan loop collects exactly the descriptions of the matching patterns,
in list order. -/
theorem scanLoop_eq_filter_map (l : List (Rx × String)) (t : String) :
    scanLoop l t = (l.filter (fun p => rxTest p.1 t)).map Prod.snd := by
  induction l with
  | nil => simp [scanLoop]
  | cons p ps ih =>
      by_cases h : rxTest p.1 t = true
      · simp [scanLoop, h, ih]
      · simp only [Bool.not_eq_true] at h
        simp [scanLoop, h, ih]

/-- C4: classification is total and deterministic over all strings, applying
the URL check first, the address check second and falling back to message;
with the four concrete example classifications of the spec. -/
theorem classify_total_url_first_address_second (s : String) :
    (classify s = Category.url ∨ classify s = Category.tokenAddress ∨
      classify s = Category.message) ∧
    (isUrl s = true → classify s = Category.url) ∧
    (isUrl s = false → isEthereumAddress s = true → classify s = Category.tokenAddress) ∧
    (isUrl s = false → isEthereumAddress s = false → classify s = Category.message) ∧
    classify "https://example.com" = Category.url ∧
    classify "0xaaaaaaaaaabbbbbbbbbbccccccccccdddddddddd" = Category.tokenAddress ∧
    classify "hello" = Category.message ∧
    classify "0x123" = Category.message := by
  refine ⟨?_, ?_, ?_, ?_, by decide, by decide, by decide, by decide⟩
  · unfold classify
    split
    · exact Or.inl rfl
    · split
      · exact Or.inr (Or.inl rfl)
      · exact Or.inr (Or.inr rfl)
  · intro h; simp [classify, h]
  · intro h1 h2; simp [classify, h1, h2]
  · intro h1 h2; simp [classify, h1, h2]

/-- Witness for C4 at a concrete scheme-bearing string. -/
theorem classify_total_url_first_witness : classify "mailto:someone" = Category.url :=
  (classify_total_url_first_address_second "mailto:someone").2.1 (by decide)

/-- C5 counterexample: a string matching the claimed case-insensitive pattern
with an uppercase 0X prefix is not recognised by the source regex, which has
no ignore-case flag, and is classified as message, not token-address. -/
theorem uppercase_prefix_not_token_counterexample :
    specTokenPatternCI "0Xaaaaaaaaaabbbbbbbbbbccccccccccdddddddddd" = true ∧
    isUrl "0Xaaaaaaaaaabbbbbbbbbbccccccccccdddddddddd" = false ∧
    isEthereumAddress "0Xaaaaaaaaaabbbbbbbbbbccccccccccdddddddddd" = false ∧
    classify "0Xaaaaaaaaaabbbbbbbbbbccccccccccdddddddddd" = Category.message := by
  decide

/-- C5 (amended): for strings that do not parse as URLs, classification as
token-address holds iff the text matches the source pattern: a literal
lowercase 0x followed by exactly 40 hexadecimal characters whose letters may
be either case. -/
theorem token_iff_lowercase_prefix_forty_hex (s : String) (h : isUrl s = false) :
    classify s = Category.tokenAddress ↔ isEthereumAddress s = true := by
  cases heth : isEthereumAddress s <;> simp [classify, h, heth]

/-- Witness for the amended C5 at a concrete mixed-case address. -/
theorem token_iff_lowercase_prefix_witness :
    classify "0x0123456789abcdef0123456789ABCDEF01234567" = Category.tokenAddress :=
  (token_iff_lowercase_prefix_forty_hex "0x0123456789abcdef0123456789ABCDEF01234567"
    (by decide)).mpr (by decide)

/-- C6: the scanner returns exactly the descriptions of the matching
patterns, in the fixed list-definition order (so an empty list when none
match), and the matched flag is true iff that list is non-empty. -/
theorem scan_matching_descriptions_in_order (text : String) :
    (containsScamPatterns text).patterns =
      (scamPatterns.filter (fun p => rxTest p.1 (strToLower text))).map Prod.snd ∧
    ((containsScamPatterns text).containsPatterns = true ↔
      (containsScamPatterns text).patterns ≠ []) := by
  constructor
  · simp [containsScamPatterns, scanLoop_eq_filter_map]
  · simp only [containsScamPatterns]
    cases h : scanLoop scamPatterns (strToLower text) <;> simp [h]

/-- Witness for C6 on a concrete seed-phrase solicitation. -/
theorem scan_matching_descriptions_witness :
    (containsScamPatterns "give me your seed phrase").patterns =
      ["Asking for private key or seed phrase"] ∧
    (containsScamPatterns "give me your seed phrase").containsPatterns = true := by
  have h := scan_matching_descriptions_in_order "give me your seed phrase"
  exact ⟨h.1.trans (by decide), h.2.mpr (by decide)⟩

/-- C9: every store update appends exactly one entry to the updated chat's
sequence (or appends nothing when no details are given) and leaves every
other chat's record untouched; no existing entry is removed or modified. -/
theorem session_store_append_only (store : SessionStore) (chatId : Int)
    (details : Option AnalysisDetails) (now : Nat) :
    getUserAnalysisHistory (updateUserSession store chatId details now).1 chatId =
      getUserAnalysisHistory store chatId ++ entryOf details now ∧
    (∀ c : Int, c ≠ chatId → (updateUserSession store chatId details now).1 c = store c) := by
  constructor
  · cases h : store chatId <;>
      simp [updateUserSession, getUserAnalysisHistory, h]
  · intro c hc
    cases h : store chatId <;>
      simp [updateUserSession, h, hc]

/-- Witness for C9: a fresh chat record is created by appending to the empty
history, and an unrelated chat is untouched. -/
theorem session_store_append_only_witness :
    getUserAnalysisHistory
        (updateUserSession (fun _ => none) 1 (some ⟨"R", .url, "u"⟩) 5).1 1 =
      getUserAnalysisHistory (fun _ => none) 1 ++ entryOf (some ⟨"R", .url, "u"⟩) 5 ∧
    (updateUserSession (fun _ => none) 1 (some ⟨"R", .url, "u"⟩) 5).1 2 =
      (fun _ => (none : Option UserSession)) 2 := by
  have h := session_store_append_only (fun _ => none) 1 (some ⟨"R", .url, "u"⟩) 5
  exact ⟨h.1, h.2 2 (by decide)⟩

/-- C7: the history listing shows at most five entries; a chat with no
recorded analyses gets an empty listing; a session with more than five gets
exactly five; and entry i of the listing is entry (length - 1 - i) of the
recorded sequence, i.e. the listing is the tail of the history most-recent
first. -/
theorem history_last_five_newest_first (store : SessionStore) (chatId : Int) :
    (recentAnalyses (getUserAnalysisHistory store chatId)).length ≤ 5 ∧
    (store chatId = none → recentAnalyses (getUserAnalysisHistory store chatId) = []) ∧
    (5 < (getUserAnalysisHistory store chatId).length →
      (recentAnalyses (getUserAnalysisHistory store chatId)).length = 5) ∧
    (∀ i, i < (recentAnalyses (getUserAnalysisHistory store chatId)).length →
      (recentAnalyses (getUserAnalysisHistory store chatId))[i]? =
        (getUserAnalysisHistory store chatId)[(getUserAnalysisHistory store chatId).length - 1 - i]?) := by
  set l := getUserAnalysisHistory store chatId with hl
  have hlen : (recentAnalyses l).length = l.length - (l.length - 5) := by
    simp [recentAnalyses, jsSliceLast]
  refine ⟨by omega, ?_, by omega, ?_⟩
  · intro hnone
    have : l = [] := by rw [hl]; simp [getUserAnalysisHistory, hnone]
    simp [recentAnalyses, jsSliceLast, this]
  · intro i hi
    have hi2 : i < (jsSliceLast 5 l).length := by
      simpa [recentAnalyses] using hi
    have h1 : (recentAnalyses l)[i]? =
        (jsSliceLast 5 l)[(jsSliceLast 5 l).length - 1 - i]? := by
      simpa [recentAnalyses] using List.getElem?_reverse hi2
    have h2 : (jsSliceLast 5 l)[(jsSliceLast 5 l).length - 1 - i]? =
        l[(l.length - 5) + ((jsSliceLast 5 l).length - 1 - i)]? := by
      simp [jsSliceLast, List.getElem?_drop]
    have h3 : (l.length - 5) + ((jsSliceLast 5 l).length - 1 - i) = l.length - 1 - i := by
      have : (jsSliceLast 5 l).length = l.length - (l.length - 5) := by
        simp [jsSliceLast]
      omega
    rw [h1, h2, h3]

/-- A concrete store with one chat holding seven recorded analyses (only used
to witness C7). -/
def sampleStore : SessionStore := fun c =>
  if c == 1 then
    some ⟨1, 7,
      [⟨"A", .url, "a", 1⟩, ⟨"B", .token, "b", 2⟩, ⟨"C", .message, "c", 3⟩,
       ⟨"D", .url, "d", 4⟩, ⟨"E", .token, "e", 5⟩, ⟨"F", .message, "f", 6⟩,
       ⟨"G", .url, "g", 7⟩]⟩
  else none

/-- Witness for C7 on the seven-entry store: five shown, and the first one
shown is the most recent recorded entry. -/
theorem history_last_five_witness :
    (recentAnalyses (getUserAnalysisHistory sampleStore 1)).length = 5 ∧
    (recentAnalyses (getUserAnalysisHistory sampleStore 1))[0]? =
      (getUserAnalysisHistory sampleStore 1)[(getUserAnalysisHistory sampleStore 1).length - 1 - 0]? := by
  have h := history_last_five_newest_first sampleStore 1
  exact ⟨h.2.2.1 (by decide), h.2.2.2 0 (by decide)⟩

/-- A character of a prefix is a character of the whole list. -/
theorem prefix_mem {p l : List Char} (h : p.isPrefixOf l) {x : Char} (hx : x ∈ p) : x ∈ l := by
  rw [List.isPrefixOf_iff_prefix] at h
  exact h.subset hx

/-- Characters of any line of a split belong to the join of the split. -/
theorem mem_joinNl {ls : List (List Char)} {piece : List Char} (hp : piece ∈ ls)
    {c : Char} (hc : c ∈ piece) : c ∈ joinNl ls := by
  induction ls with
  | nil => simp at hp
  | cons l rest ih =>
      rcases List.mem_cons.mp hp with rfl | hp2
      · cases rest with
        | nil => simpa [joinNl] using hc
        | cons m ms => simp [joinNl]; exact Or.inl hc
      · cases rest with
        | nil => simp at hp2
        | cons m ms =>
            simp only [joinNl]
            have := ih hp2
            simp only [List.mem_append, List.mem_cons]
            right; right
            simpa using this

/-- Splitting never yields an empty list of lines. -/
theorem splitNl_ne_nil (s : List Char) : splitNl s ≠ [] := by
  induction s with
  | nil => simp [splitNl]
  | cons c cs ih =>
      by_cases h : c = '\n'
      · simp [splitNl, h]
      · simp only [splitNl]
        rw [if_neg (by simpa using h)]
        cases hsp : splitNl cs with
        | nil => simp
        | cons l ls => simp

/-- Joining the split on newlines reconstructs the original text. -/
theorem joinNl_splitNl (s : List Char) : joinNl (splitNl s) = s := by
  induction s with
  | nil => simp [splitNl, joinNl]
  | cons c cs ih =>
      by_cases h : c = '\n'
      · subst h
        simp only [splitNl, if_pos rfl]
        cases hsp : splitNl cs with
        | nil => exact absurd hsp (splitNl_ne_nil cs)
        | cons l ls =>
            rw [hsp] at ih
            simp [joinNl, ih]
      · simp only [splitNl]
        rw [if_neg (by simpa using h)]
        cases hsp : splitNl cs with
        | nil => exact absurd hsp (splitNl_ne_nil cs)
        | cons l ls =>
            rw [hsp] at ih
            cases ls with
            | nil => simp only [joinNl] at ih ⊢; rw [ih]
            | cons m ms =>
                simp only [joinNl] at ih ⊢
                rw [List.cons_append, ih]

/-- A per-line transformation fixing every clean line fixes every clean
text. -/
theorem mapLines_fix (f : List Char → List Char)
    (hf : ∀ line, (∀ c ∈ line, isReservedChar c = false) → f line = line)
    (s : List Char) (hs : ∀ c ∈ s, isReservedChar c = false) :
    mapLines f s = s := by
  unfold mapLines
  have hmap : (splitNl s).map f = splitNl s := by
    conv_rhs => rw [show splitNl s = (splitNl s).map id from (List.map_id _).symm]
    apply List.map_congr_left
    intro piece hp
    have hcl : ∀ c ∈ piece, isReservedChar c = false := by
      intro c hc
      have : c ∈ joinNl (splitNl s) := mem_joinNl hp hc
      rw [joinNl_splitNl] at this
      exact hs c this
    simpa using hf piece hcl
  rw [hmap, joinNl_splitNl]

/-- Escaping is the identity on a clean line. -/
theorem escapeLine_fix (line : List Char)
    (h : ∀ c ∈ line, isReservedChar c = false) : escapeLine line = line := by
  induction line with
  | nil => rfl
  | cons c cs ih =>
      have hc := h c (List.mem_cons_self c cs)
      simp only [escapeLine, List.flatMap_cons] at *
      rw [show escChar c = [c] from by simp [escChar, hc]]
      simp only [List.singleton_append, List.cons.injEq, true_and]
      exact ih fun d hd => h d (List.mem_cons_of_mem _ hd)

/-- The header substitutions fix every clean line (their markers need an
escaped hash). -/
theorem hdrLine_fix (n : Nat) (hn : '#' ∈ hdrPat n) (line : List Char)
    (h : ∀ c ∈ line, isReservedChar c = false) : hdrLine n line = line := by
  unfold hdrLine
  split
  · rename_i hpre
    exact absurd (h '#' (prefix_mem hpre hn)) (by decide)
  · rfl

/-- The paired-delimiter substitutions fix every clean line when the opener
contains a reserved character. -/
theorem pairScanF_fix (opRest clRest : List Char) (w x : Char)
    (hx : x ∈ opRest) (hres : isReservedChar x = true) :
    ∀ fuel line, (∀ c ∈ line, isReservedChar c = false) →
      pairScanF opRest clRest w fuel line = line := by
  intro fuel
  induction fuel with
  | zero => intro line _; rfl
  | succ n ih =>
      intro line h
      cases line with
      | nil => rfl
      | cons c cs =>
          have hpre : opRest.isPrefixOf cs = false := by
            by_contra hh
            simp only [Bool.not_eq_false] at hh
            have := h x (List.mem_cons_of_mem _ (prefix_mem hh hx))
            rw [hres] at this
            simp at this
          simp only [pairScanF, hpre, Bool.and_false, Bool.false_eq_true, if_false]
          rw [ih cs fun d hd => h d (List.mem_cons_of_mem _ hd)]

/-- The link substitution fixes every clean line (its opener needs an
escaped bracket). -/
theorem linkScanF_fix :
    ∀ fuel line, (∀ c ∈ line, isReservedChar c = false) → linkScanF fuel line = line := by
  intro fuel
  induction fuel with
  | zero => intro line _; rfl
  | succ n ih =>
      intro line h
      cases line with
      | nil => rfl
      | cons c cs =>
          have hpre : (['['] : List Char).isPrefixOf cs = false := by
            by_contra hh
            simp only [Bool.not_eq_false] at hh
            exact absurd (h '[' (List.mem_cons_of_mem _ (prefix_mem hh (by simp)))) (by decide)
          simp only [linkScanF, hpre, Bool.and_false, Bool.false_eq_true, if_false]
          rw [ih cs fun d hd => h d (List.mem_cons_of_mem _ hd)]

/-- The bullet-list substitution fixes every clean text (its marker needs an
escaped dash). -/
theorem dashStageF_fix :
    ∀ fuel atStart line, (∀ c ∈ line, isReservedChar c = false) →
      dashStageF fuel atStart line = line := by
  intro fuel
  induction fuel with
  | zero => intro atStart line _; rfl
  | succ n ih =>
      intro atStart line h
      cases line with
      | nil => rfl
      | cons c cs =>
          have hpre : (['-'] : List Char).isPrefixOf cs = false := by
            by_contra hh
            simp only [Bool.not_eq_false] at hh
            exact absurd (h '-' (List.mem_cons_of_mem _ (prefix_mem hh (by simp)))) (by decide)
          simp only [dashStageF, hpre, Bool.and_false, Bool.false_eq_true, if_false]
          rw [ih _ cs fun d hd => h d (List.mem_cons_of_mem _ hd)]

/-- The numbered-list substitution fixes every clean text (its marker needs
an escaped dot). -/
theorem numStageF_fix :
    ∀ fuel atStart line, (∀ c ∈ line, isReservedChar c = false) →
      numStageF fuel atStart line = line := by
  intro fuel
  induction fuel with
  | zero => intro atStart line _; rfl
  | succ n ih =>
      intro atStart line h
      cases line with
      | nil => rfl
      | cons c cs =>
          have hpre : ([bs, '.'] : List Char).isPrefixOf
              ((c :: cs).drop ((c :: cs).takeWhile Char.isDigit).length) = false := by
            by_contra hh
            simp only [Bool.not_eq_false] at hh
            have hdot : '.' ∈ (c :: cs).drop ((c :: cs).takeWhile Char.isDigit).length :=
              prefix_mem hh (by simp)
            exact absurd (h '.' (List.drop_subset _ _ hdot)) (by decide)
          simp only [numStageF, hpre, Bool.and_false, Bool.false_eq_true, if_false]
          rw [ih _ cs fun d hd => h d (List.mem_cons_of_mem _ hd)]

/-- The newline collapse fixes every text with no run of three consecutive
newlines. -/
theorem collapseGo_no_triple :
    ∀ (s : List Char) (n : Nat), n ≤ 2 →
      ¬ List.IsInfix ['\n', '\n', '\n'] (List.replicate n '\n' ++ s) →
      collapseGo n s = List.replicate n '\n' ++ s := by
  intro s
  induction s with
  | nil =>
      intro n hn _
      simp [collapseGo, emitRun, Nat.min_eq_left hn]
  | cons c cs ih =>
      intro n hn htrip
      by_cases hc : c = '\n'
      · subst hc
        have hn1 : n ≤ 1 := by
          by_contra hgt
          have hn2 : n = 2 := by omega
          subst hn2
          exact htrip ⟨[], cs, rfl⟩
        have heq : List.replicate (n + 1) '\n' ++ cs = List.replicate n '\n' ++ '\n' :: cs := by
          simp [List.replicate_succ']
        have hstep : collapseGo n ('\n' :: cs) = collapseGo (n + 1) cs := by
          simp [collapseGo]
        rw [hstep, ih (n + 1) (by omega) (by rw [heq]; exact htrip), heq]
      · simp only [collapseGo]
        rw [if_neg (by simpa using hc)]
        have hcs : collapseGo 0 cs = cs := by
          have hsub : ¬ List.IsInfix ['\n', '\n', '\n'] cs := fun hin =>
            htrip (hin.trans ⟨List.replicate n '\n' ++ [c], [], by simp⟩)
          simpa using ih 0 (by omega) (by simpa using hsub)
        rw [hcs]
        simp [emitRun, Nat.min_eq_left hn]

/-- C8: on input containing none of the reserved markup characters, the
formatter only collapses newline runs: the output is the input with every
run of three or more consecutive newlines replaced by exactly two; with no
such run, the output is the input itself. -/
theorem formatter_plain_text_only_collapses_newlines (text : String)
    (h : ∀ c ∈ text.data, isReservedChar c = false) :
    convertToTelegramMarkdown text = String.mk (collapseNl text.data) ∧
    (¬ List.IsInfix ['\n', '\n', '\n'] text.data → convertToTelegramMarkdown text = text) := by
  have e0 : mapLines escapeLine text.data = text.data := mapLines_fix _ escapeLine_fix _ h
  have e3 : mapLines (hdrLine 3) text.data = text.data :=
    mapLines_fix _ (hdrLine_fix 3 (by decide)) _ h
  have e2 : mapLines (hdrLine 2) text.data = text.data :=
    mapLines_fix _ (hdrLine_fix 2 (by decide)) _ h
  have e1 : mapLines (hdrLine 1) text.data = text.data :=
    mapLines_fix _ (hdrLine_fix 1 (by decide)) _ h
  have eb1 : mapLines (fun l => pairScanF ['*', bs, '*'] ['*', bs, '*'] '*' l.length l)
      text.data = text.data :=
    mapLines_fix _
      (fun line hl => pairScanF_fix ['*', bs, '*'] ['*', bs, '*'] '*' '*'
        (by simp) (by decide) line.length line hl) _ h
  have eb2 : mapLines (fun l => pairScanF ['_', bs, '_'] ['_', bs, '_'] '*' l.length l)
      text.data = text.data :=
    mapLines_fix _
      (fun line hl => pairScanF_fix ['_', bs, '_'] ['_', bs, '_'] '*' '_'
        (by simp) (by decide) line.length line hl) _ h
  have ei1 : mapLines (fun l => pairScanF ['*'] ['*'] '_' l.length l) text.data = text.data :=
    mapLines_fix _
      (fun line hl => pairScanF_fix ['*'] ['*'] '_' '*' (by simp) (by decide)
        line.length line hl) _ h
  have ei2 : mapLines (fun l => pairScanF ['_'] ['_'] '_' l.length l) text.data = text.data :=
    mapLines_fix _
      (fun line hl => pairScanF_fix ['_'] ['_'] '_' '_' (by simp) (by decide)
        line.length line hl) _ h
  have edash : dashStageF text.data.length true text.data = text.data :=
    dashStageF_fix _ _ _ h
  have enum : numStageF text.data.length true text.data = text.data :=
    numStageF_fix _ _ _ h
  have elink : mapLines (fun l => linkScanF l.length l) text.data = text.data :=
    mapLines_fix _ (fun line hl => linkScanF_fix line.length line hl) _ h
  have hmain : convertToTelegramMarkdown text = String.mk (collapseNl text.data) := by
    simp only [convertToTelegramMarkdown]
    rw [e0, e3, e2, e1, eb1, eb2, ei1, ei2, edash, enum, elink]
  refine ⟨hmain, ?_⟩
  intro htrip
  rw [hmain]
  have hfix : collapseNl text.data = text.data := by
    simpa [collapseNl] using collapseGo_no_triple text.data 0 (by omega) (by simpa using htrip)
  rw [hfix]

/-- Witness for C8: a reserved-character-free text with a double newline is
returned verbatim. -/
theorem formatter_plain_witness :
    convertToTelegramMarkdown "plain text\n\nok" = "plain text\n\nok" :=
  (formatter_plain_text_only_collapses_newlines "plain text\n\nok" (by decide)).2 (by decide)

/-- C1: when all five submissions succeed, every workflow creates exactly
five tasks whose ids are the platform-assigned ones in creation order, with
the fixed dependency edges: task 2 on [task 1], task 3 on [task 1], task 4 on
[task 2, task 3], task 5 on [task 4], for the url, token-address and message
pipelines alike. -/
theorem workflows_five_tasks_fixed_edges (env : EnvConfig) (oracle : TaskOracle)
    (currentChatId : Option Int) (url address chain message requestId : String)
    (contextInfo : Option String) (f : Nat → Nat)
    (h : ∀ k, k < 5 → oracle k = Except.ok (f k)) :
    ((createUrlAnalysisWorkflow env oracle currentChatId url requestId).created.map Prod.fst =
        [f 0, f 1, f 2, f 3, f 4] ∧
      (createUrlAnalysisWorkflow env oracle currentChatId url requestId).created.map
          (fun p => p.2.dependencies) = [[], [f 0], [f 0], [f 1, f 2], [f 3]]) ∧
    ((createTokenAnalysisWorkflow env oracle currentChatId address chain requestId).created.map
        Prod.fst = [f 0, f 1, f 2, f 3, f 4] ∧
      (createTokenAnalysisWorkflow env oracle currentChatId address chain requestId).created.map
          (fun p => p.2.dependencies) = [[], [f 0], [f 0], [f 1, f 2], [f 3]]) ∧
    ((createMessageAnalysisWorkflow env oracle currentChatId message requestId
        contextInfo).created.map Prod.fst = [f 0, f 1, f 2, f 3, f 4] ∧
      (createMessageAnalysisWorkflow env oracle currentChatId message requestId
          contextInfo).created.map (fun p => p.2.dependencies) =
        [[], [f 0], [f 0], [f 1, f 2], [f 3]]) := by
  have h0 := h 0 (by omega)
  have h1 := h 1 (by omega)
  have h2 := h 2 (by omega)
  have h3 := h 3 (by omega)
  have h4 := h 4 (by omega)
  refine ⟨⟨?_, ?_⟩, ⟨?_, ?_⟩, ⟨?_, ?_⟩⟩ <;>
    simp [createUrlAnalysisWorkflow, createTokenAnalysisWorkflow, createMessageAnalysisWorkflow,
      verifyAgentInWorkspace, h0, h1, h2, h3, h4]

/-- Witness for C1: the url pipeline on an all-accepting platform. -/
theorem workflows_five_tasks_witness :
    (createUrlAnalysisWorkflow {} (fun k => Except.ok (k + 1)) (some 5) "u" "R").created.map
        (fun p => p.2.dependencies) = [[], [1], [1], [2, 3], [4]] := by
  have h := workflows_five_tasks_fixed_edges {} (fun k => Except.ok (k + 1)) (some 5)
    "u" "a" "eth" "m" "R" none (fun k => k + 1) (fun k _ => rfl)
  simpa using h.1.2

/-- C2: when the platform rejects the submission of task k (after accepting
the first k), every workflow stops: exactly the k already-submitted tasks
exist (nothing is rolled back), no later task is created, and exactly one
error message is sent to the chat named by the set current-chat pointer. -/
theorem workflows_abort_on_failure (env : EnvConfig) (oracle : TaskOracle)
    (chatId : Int) (url address chain message requestId : String)
    (contextInfo : Option String) (k : Nat) (f : Nat → Nat) (e : String)
    (hk : k < 5)
    (hok : ∀ j, j < k → oracle j = Except.ok (f j))
    (herr : oracle k = Except.error e)
    (hchat : chatId ≠ 0) :
    ((createUrlAnalysisWorkflow env oracle (some chatId) url requestId).created.map Prod.fst =
        (List.range k).map f ∧
      (createUrlAnalysisWorkflow env oracle (some chatId) url requestId).messages =
        [(chatId, "❌ Error analyzing URL: " ++ e)]) ∧
    ((createTokenAnalysisWorkflow env oracle (some chatId) address chain requestId).created.map
        Prod.fst = (List.range k).map f ∧
      (createTokenAnalysisWorkflow env oracle (some chatId) address chain requestId).messages =
        [(chatId, "❌ Error analyzing token: " ++ e)]) ∧
    ((createMessageAnalysisWorkflow env oracle (some chatId) message requestId
        contextInfo).created.map Prod.fst = (List.range k).map f ∧
      (createMessageAnalysisWorkflow env oracle (some chatId) message requestId
          contextInfo).messages = [(chatId, "❌ Error analyzing message: " ++ e)]) := by
  interval_cases k
  · refine ⟨⟨?_, ?_⟩, ⟨?_, ?_⟩, ⟨?_, ?_⟩⟩ <;>
      simp [createUrlAnalysisWorkflow, createTokenAnalysisWorkflow,
        createMessageAnalysisWorkflow, verifyAgentInWorkspace, errorReport, herr, hchat]
  · have h0 := hok 0 (by omega)
    refine ⟨⟨?_, ?_⟩, ⟨?_, ?_⟩, ⟨?_, ?_⟩⟩ <;>
      simp [createUrlAnalysisWorkflow, createTokenAnalysisWorkflow,
        createMessageAnalysisWorkflow, verifyAgentInWorkspace, errorReport, h0, herr, hchat,
        List.range_succ]
  · have h0 := hok 0 (by omega)
    have h1 := hok 1 (by omega)
    refine ⟨⟨?_, ?_⟩, ⟨?_, ?_⟩, ⟨?_, ?_⟩⟩ <;>
      simp [createUrlAnalysisWorkflow, createTokenAnalysisWorkflow,
        createMessageAnalysisWorkflow, verifyAgentInWorkspace, errorReport, h0, h1, herr, hchat,
        List.range_succ]
  · have h0 := hok 0 (by omega)
    have h1 := hok 1 (by omega)
    have h2 := hok 2 (by omega)
    refine ⟨⟨?_, ?_⟩, ⟨?_, ?_⟩, ⟨?_, ?_⟩⟩ <;>
      simp [createUrlAnalysisWorkflow, createTokenAnalysisWorkflow,
        createMessageAnalysisWorkflow, verifyAgentInWorkspace, errorReport, h0, h1, h2, herr,
        hchat, List.range_succ]
  · have h0 := hok 0 (by omega)
    have h1 := hok 1 (by omega)
    have h2 := hok 2 (by omega)
    have h3 := hok 3 (by omega)
    refine ⟨⟨?_, ?_⟩, ⟨?_, ?_⟩, ⟨?_, ?_⟩⟩ <;>
      simp [createUrlAnalysisWorkflow, createTokenAnalysisWorkflow,
        createMessageAnalysisWorkflow, verifyAgentInWorkspace, errorReport, h0, h1, h2, h3,
        herr, hchat, List.range_succ]

/-- Witness for C2: the token pipeline with the second submission rejected
keeps only the first task and reports once. -/
theorem workflows_abort_witness :
    (createTokenAnalysisWorkflow {}
        (fun n => if n == 0 then Except.ok 7 else Except.error "boom")
        (some 5) "a" "eth" "R").created.map Prod.fst = (List.range 1).map (fun _ => 7) ∧
    (createTokenAnalysisWorkflow {}
        (fun n => if n == 0 then Except.ok 7 else Except.error "boom")
        (some 5) "a" "eth" "R").messages = [(5, "❌ Error analyzing token: " ++ "boom")] := by
  have h := workflows_abort_on_failure {}
    (fun n => if n == 0 then Except.ok 7 else Except.error "boom")
    5 "u" "a" "eth" "m" "R" none 1 (fun _ => 7) "boom" (by omega)
    (by intro j hj; interval_cases j; rfl) rfl (by decide)
  exact h.2.1

/-- An empty task list is layered. -/
theorem layered_nil : layered [] := by
  intro i hi
  simp at hi

/-- A single task with no dependencies is layered. -/
theorem layered_one (a : Nat) (r1 : CreateTaskReq) (h1 : r1.dependencies = []) :
    layered [(a, r1)] := by
  intro i hi d hd
  have hb : i < 1 := by simpa using hi
  interval_cases i
  have e : ([(a, r1)].get ⟨0, hi⟩) = (a, r1) := rfl
  rw [e, h1] at hd
  simp at hd

/-- The two-task prefix shape of every pipeline is layered. -/
theorem layered_two (a b : Nat) (r1 r2 : CreateTaskReq)
    (h1 : r1.dependencies = []) (h2 : r2.dependencies = [a]) :
    layered [(a, r1), (b, r2)] := by
  intro i hi d hd
  have hb : i < 2 := by simpa using hi
  interval_cases i
  · have e : ([(a, r1), (b, r2)].get ⟨0, hi⟩) = (a, r1) := rfl
    rw [e, h1] at hd
    simp at hd
  · have e : ([(a, r1), (b, r2)].get ⟨1, hi⟩) = (b, r2) := rfl
    rw [e, h2] at hd
    simp at hd
    subst hd
    exact ⟨0, by omega, by omega, rfl⟩

/-- The three-task prefix shape of every pipeline is layered. -/
theorem layered_three (a b c : Nat) (r1 r2 r3 : CreateTaskReq)
    (h1 : r1.dependencies = []) (h2 : r2.dependencies = [a]) (h3 : r3.dependencies = [a]) :
    layered [(a, r1), (b, r2), (c, r3)] := by
  intro i hi d hd
  have hb : i < 3 := by simpa using hi
  interval_cases i
  · have e : ([(a, r1), (b, r2), (c, r3)].get ⟨0, hi⟩) = (a, r1) := rfl
    rw [e, h1] at hd
    simp at hd
  · have e : ([(a, r1), (b, r2), (c, r3)].get ⟨1, hi⟩) = (b, r2) := rfl
    rw [e, h2] at hd
    simp at hd
    subst hd
    exact ⟨0, by omega, by omega, rfl⟩
  · have e : ([(a, r1), (b, r2), (c, r3)].get ⟨2, hi⟩) = (c, r3) := rfl
    rw [e, h3] at hd
    simp at hd
    subst hd
    exact ⟨0, by omega, by omega, rfl⟩

/-- The four-task prefix shape of every pipeline is layered. -/
theorem layered_four (a b c d4 : Nat) (r1 r2 r3 r4 : CreateTaskReq)
    (h1 : r1.dependencies = []) (h2 : r2.dependencies = [a]) (h3 : r3.dependencies = [a])
    (h4 : r4.dependencies = [b, c]) :
    layered [(a, r1), (b, r2), (c, r3), (d4, r4)] := by
  intro i hi d hd
  have hb : i < 4 := by simpa using hi
  interval_cases i
  · have e : ([(a, r1), (b, r2), (c, r3), (d4, r4)].get ⟨0, hi⟩) = (a, r1) := rfl
    rw [e, h1] at hd
    simp at hd
  · have e : ([(a, r1), (b, r2), (c, r3), (d4, r4)].get ⟨1, hi⟩) = (b, r2) := rfl
    rw [e, h2] at hd
    simp at hd
    subst hd
    exact ⟨0, by omega, by omega, rfl⟩
  · have e : ([(a, r1), (b, r2), (c, r3), (d4, r4)].get ⟨2, hi⟩) = (c, r3) := rfl
    rw [e, h3] at hd
    simp at hd
    subst hd
    exact ⟨0, by omega, by omega, rfl⟩
  · have e : ([(a, r1), (b, r2), (c, r3), (d4, r4)].get ⟨3, hi⟩) = (d4, r4) := rfl
    rw [e, h4] at hd
    simp at hd
    rcases hd with rfl | rfl
    · exact ⟨1, by omega, by omega, rfl⟩
    · exact ⟨2, by omega, by omega, rfl⟩

/-- The full five-task shape of every pipeline is layered. -/
theorem layered_five (a b c d4 e5 : Nat) (r1 r2 r3 r4 r5 : CreateTaskReq)
    (h1 : r1.dependencies = []) (h2 : r2.dependencies = [a]) (h3 : r3.dependencies = [a])
    (h4 : r4.dependencies = [b, c]) (h5 : r5.dependencies = [d4]) :
    layered [(a, r1), (b, r2), (c, r3), (d4, r4), (e5, r5)] := by
  intro i hi d hd
  have hb : i < 5 := by simpa using hi
  interval_cases i
  · have e : ([(a, r1), (b, r2), (c, r3), (d4, r4), (e5, r5)].get ⟨0, hi⟩) = (a, r1) := rfl
    rw [e, h1] at hd
    simp at hd
  · have e : ([(a, r1), (b, r2), (c, r3), (d4, r4), (e5, r5)].get ⟨1, hi⟩) = (b, r2) := rfl
    rw [e, h2] at hd
    simp at hd
    subst hd
    exact ⟨0, by omega, by omega, rfl⟩
  · have e : ([(a, r1), (b, r2), (c, r3), (d4, r4), (e5, r5)].get ⟨2, hi⟩) = (c, r3) := rfl
    rw [e, h3] at hd
    simp at hd
    subst hd
    exact ⟨0, by omega, by omega, rfl⟩
  · have e : ([(a, r1), (b, r2), (c, r3), (d4, r4), (e5, r5)].get ⟨3, hi⟩) = (d4, r4) := rfl
    rw [e, h4] at hd
    simp at hd
    rcases hd with rfl | rfl
    · exact ⟨1, by omega, by omega, rfl⟩
    · exact ⟨2, by omega, by omega, rfl⟩
  · have e : ([(a, r1), (b, r2), (c, r3), (d4, r4), (e5, r5)].get ⟨4, hi⟩) = (e5, r5) := rfl
    rw [e, h5] at hd
    simp at hd
    subst hd
    exact ⟨3, by omega, by omega, rfl⟩

/-- C3: whatever the platform answers, every workflow's submitted task list
is strictly layered — each task's dependency list references only ids of
tasks created earlier in the same invocation — and (generically) when the
assigned ids are distinct this forbids forward references and cycles: every
dependency edge points to a strictly earlier task. -/
theorem workflows_layered_dag (env : EnvConfig) (oracle : TaskOracle)
    (currentChatId : Option Int) (url address chain message requestId : String)
    (contextInfo : Option String) :
    layered (createUrlAnalysisWorkflow env oracle currentChatId url requestId).created ∧
    layered (createTokenAnalysisWorkflow env oracle currentChatId address chain
      requestId).created ∧
    layered (createMessageAnalysisWorkflow env oracle currentChatId message requestId
      contextInfo).created ∧
    (∀ l : List (Nat × CreateTaskReq), layered l → (l.map Prod.fst).Nodup →
      ∀ i j, ∀ hi : i < l.length, ∀ hj : j < l.length,
        (l.get ⟨j, hj⟩).1 ∈ (l.get ⟨i, hi⟩).2.dependencies → j < i) := by
  refine ⟨?_, ?_, ?_, ?_⟩
  · rcases e0 : oracle 0 with er0 | i1 <;>
      rcases e1 : oracle 1 with er1 | i2 <;>
        rcases e2 : oracle 2 with er2 | i3 <;>
          rcases e3 : oracle 3 with er3 | i4 <;>
            rcases e4 : oracle 4 with er4 | i5 <;>
              simp only [createUrlAnalysisWorkflow, verifyAgentInWorkspace, e0, e1, e2, e3, e4] <;>
              norm_num <;>
              first
                | exact layered_nil
                | exact layered_one _ _ rfl
                | exact layered_two _ _ _ _ rfl rfl
                | exact layered_three _ _ _ _ _ _ rfl rfl rfl
                | exact layered_four _ _ _ _ _ _ _ _ rfl rfl rfl rfl
                | exact layered_five _ _ _ _ _ _ _ _ _ _ rfl rfl rfl rfl rfl
  · rcases e0 : oracle 0 with er0 | i1 <;>
      rcases e1 : oracle 1 with er1 | i2 <;>
        rcases e2 : oracle 2 with er2 | i3 <;>
          rcases e3 : oracle 3 with er3 | i4 <;>
            rcases e4 : oracle 4 with er4 | i5 <;>
              simp only [createTokenAnalysisWorkflow, verifyAgentInWorkspace, e0, e1, e2, e3,
                e4] <;>
              norm_num <;>
              first
                | exact layered_nil
                | exact layered_one _ _ rfl
                | exact layered_two _ _ _ _ rfl rfl
                | exact layered_three _ _ _ _ _ _ rfl rfl rfl
                | exact layered_four _ _ _ _ _ _ _ _ rfl rfl rfl rfl
                | exact layered_five _ _ _ _ _ _ _ _ _ _ rfl rfl rfl rfl rfl
  · rcases e0 : oracle 0 with er0 | i1 <;>
      rcases e1 : oracle 1 with er1 | i2 <;>
        rcases e2 : oracle 2 with er2 | i3 <;>
          rcases e3 : oracle 3 with er3 | i4 <;>
            rcases e4 : oracle 4 with er4 | i5 <;>
              simp only [createMessageAnalysisWorkflow, verifyAgentInWorkspace, e0, e1, e2, e3,
                e4] <;>
              norm_num <;>
              first
                | exact layered_nil
                | exact layered_one _ _ rfl
                | exact layered_two _ _ _ _ rfl rfl
                | exact layered_three _ _ _ _ _ _ rfl rfl rfl
                | exact layered_four _ _ _ _ _ _ _ _ rfl rfl rfl rfl
                | exact layered_five _ _ _ _ _ _ _ _ _ _ rfl rfl rfl rfl rfl
  · intro l hlay hnod i j hi hj hmem
    obtain ⟨j2, hj2, hlt, heq⟩ := hlay i hi _ hmem
    have hij : (⟨j2, by simpa using hj2⟩ : Fin (l.map Prod.fst).length) =
        ⟨j, by simpa using hj⟩ := by
      apply (List.Nodup.get_inj_iff hnod).mp
      simp only [List.get_eq_getElem, List.getElem_map]
      simp only [List.get_eq_getElem] at heq
      rw [heq]
    have : j2 = j := by simpa using congrArg Fin.val hij
    omega

/-- Witness for C3: the url pipeline on an all-accepting platform yields a
layered task list. -/
theorem workflows_layered_dag_witness :
    layered (createUrlAnalysisWorkflow {} (fun k => Except.ok (k + 1)) (some 5) "u" "R").created :=
  (workflows_layered_dag {} (fun k => Except.ok (k + 1)) (some 5) "u" "a" "eth" "m" "R" none).1

/-- C10: with the current-chat pointer unset, the capability reports the
missing chat id and delivers nothing, for every content argument and every
transport behaviour. -/
theorem send_without_chat_pointer (content : String) (markdownOk plainOk : Bool) :
    sendTelegramMessage none content markdownOk plainOk = ("No chat ID available", []) := rfl

end CryptoVerifier
